import Mathlib

/-!
Verification development for the nova_reliefIQ scoring and prediction pipeline.

The repository's core is a small collection of scripts:
  * `NOVA/data_generation/scripts/build_need_matrix.py` — builds eleven raw
    per-district need columns and min-max normalizes each into [0,100];
  * `Nova/nepal_relief_ai/scripts/compute_fitness.py` — batch scorer: a
    zero-norm-guarded cosine, urgency = mean of the shared need columns / 100,
    heuristic fitness 0.7*match + 0.3*urgency, NaN rows skipped;
  * `NOVA/data_generation/scripts/predict.py` and
    `nepal_relief_ai/scripts/predict.py` — single-pair prediction with an
    UNguarded cosine and a model loaded from a pickle;
  * `NOVA/data_generation/scripts/generate_all_scores.py` — batch scoring over
    all (NGO, district) pairs with a per-pair try/except that logs and skips;
  * `generate_ngo_scores.py` — an alternative scorer using a hand-weighted
    blend of raw damage indicators as urgency;
  * `nepal_relief_ai/scripts/train_model.py` — trains a random forest and
    persists it with pickle.dump over an in-place open("wb").

CSV cell values are modelled as exact rationals (ℚ).  IEEE NaN, which in the
scripts arises only from 0/0 in the unguarded cosine and from numpy's mean of
an empty slice, is modelled by `Option`: `none` is NaN / a non-finite result.
Cosine similarity itself takes real values (it divides by square roots), so
match values live in ℝ; all guards tested by the scripts are decidable
conditions over ℚ.
-/

/-- Dot product of two numeric vectors, `np.dot(a, b)`.  numpy pairs entries
positionally; `zipWith` does the same (the scripts only ever apply it to
vectors produced from one shared category list, so lengths agree). -/
def dot (a b : List ℚ) : ℚ := (List.zipWith (fun x y => x * y) a b).sum

/-- Squared Euclidean norm of a vector: `np.linalg.norm(a) ** 2`.  The scripts
only ever compare `np.linalg.norm(a)` with zero, and over the reals
`‖a‖ = 0 ↔ ‖a‖² = 0`, so guards are stated on `normSq`, which is decidable. -/
def normSq (a : List ℚ) : ℚ := (a.map (fun x => x * x)).sum

/-- Euclidean norm `np.linalg.norm a` as a real number. -/
noncomputable def norm2 (a : List ℚ) : ℝ := Real.sqrt (normSq a)

/-- Cosine similarity as defined in `Nova/nepal_relief_ai/scripts/compute_fitness.py`
(lines 7–10): the zero-norm case is explicitly guarded and returns 0.
The source guard is `np.linalg.norm(a)==0 or np.linalg.norm(b)==0`, which is
equivalent to `normSq a = 0 ∨ normSq b = 0`. -/
noncomputable def cosine (a b : List ℚ) : ℝ :=
  if normSq a = 0 ∨ normSq b = 0 then 0
  else (dot a b : ℝ) / (norm2 a * norm2 b)

/-- Cosine similarity as defined in `NOVA/data_generation/scripts/predict.py`
(lines 5–6), `nepal_relief_ai/scripts/predict.py` (lines 3–4) and
`generate_all_scores.py` (lines 27–29): `np.dot(a,b)/(np.linalg.norm(a)*np.linalg.norm(b))`
with NO zero-norm guard.  When either norm is zero the denominator is zero and
(since a vector of zero norm is the zero vector) the numerator is zero too, so
IEEE evaluation yields NaN = 0.0/0.0; `none` models that NaN. -/
noncomputable def cosineUnchecked (a b : List ℚ) : Option ℝ :=
  if normSq a = 0 ∨ normSq b = 0 then none
  else some ((dot a b : ℝ) / (norm2 a * norm2 b))

/-- Mean of a list of values, `np.mean` / pandas `.mean()`: NaN (`none`) on an
empty list, the arithmetic mean otherwise. -/
def meanOpt (xs : List ℚ) : Option ℚ :=
  if xs.isEmpty then none else some (xs.sum / xs.length)

/-- Urgency as computed by every cosine-based scoring path:
`urgency = reg_vec.mean() / 100` (predict.py line 27, compute_fitness.py
line 26, generate_all_scores.py line 36). -/
def urgencyOfNeeds (n : List ℚ) : Option ℚ := (meanOpt n).map (fun u => u / 100)

/-- One row of a pandas DataFrame: the value of the key column
("district" or "NGO") plus the numeric category cells, as an association list
from column name to value. -/
structure Row where
  key : String
  cells : List (String × ℚ)
deriving DecidableEq, Repr

/-- A pandas DataFrame as loaded by `pd.read_csv`: the name of its key column,
the remaining column names in order, and its rows. -/
structure Table where
  keyCol : String
  catCols : List String
  rows : List Row
deriving DecidableEq, Repr

/-- Column list of a table, `df.columns`: the key column plus the category
columns. -/
def Table.columns (t : Table) : List String := t.keyCol :: t.catCols

/-- Row selection `df.loc[df[key] == name].values[0]`: the first row whose key
cell equals `name` exactly (pandas `==` on strings is exact, case-sensitive
equality with no trimming); `none` models the IndexError raised by `values[0]`
when no row matches. -/
def Table.lookup (t : Table) (name : String) : Option Row :=
  t.rows.find? (fun r => r.key == name)

/-- Cell access `row[c]` within a row; the scripts only access columns in the
category intersection, which both tables carry, so the default 0 for an absent
column is never reached on well-formed data. -/
def getCell (r : Row) (c : String) : ℚ := (r.cells.lookup c).getD 0

/-- Column restriction `row[cats].values`: the cell values in the order of the
selected column list. -/
def restrictRow (r : Row) (cs : List String) : List ℚ := cs.map (fun c => getCell r c)

/-- Category intersection computed identically in predict.py (line 21),
compute_fitness.py (line 15) and generate_all_scores.py (line 25):
`cats = [c for c in needs.columns if c in ngos.columns and c != "district"]`. -/
def cats (needCols ngoCols : List String) : List String :=
  needCols.filter (fun c => ngoCols.contains c && c != "district")

/-- Error outcomes raised by the scripts.  `indexError` is the IndexError from
`.values[0]` on an empty selection; `invalidInput` is sklearn's ValueError when
`model.predict` receives NaN features; `noOverlap` is the ValueError raised by
compute_fitness.py when no categories overlap; `unknownEntity` is the explicit
"not found" check-and-exit of the predict.py command-line interface. -/
inductive Err where
  | indexError
  | invalidInput
  | noOverlap
  | unknownEntity
deriving DecidableEq, Repr

/-- One output row of a scoring script: NGO name, district name, match,
urgency and fitness score. -/
structure ScoredPair where
  ngo : String
  district : String
  matchScore : ℝ
  urgency : ℝ
  fitness_score : ℝ

/-- Per-pair body shared verbatim by predict.py's `predict_fitness`
(lines 23–29) and generate_all_scores.py's `calculate_match_and_urgency` +
`model.predict` (lines 31–43, 64–78): look up the NGO row and the district row
(IndexError if absent), restrict both to the category intersection, compute the
unguarded cosine match and `mean/100` urgency, and feed both to the frozen
model.  sklearn's `predict` validates its input and raises ValueError when a
feature is NaN, so a NaN match or urgency yields `invalidInput`; otherwise the
result row carries the loop names and the model's score. -/
noncomputable def scorePair (m : ℝ → ℝ → ℝ) (ngos needs : Table) (cs : List String)
    (ngoName distName : String) : Except Err ScoredPair :=
  match ngos.lookup ngoName with
  | none => .error .indexError
  | some ngoRow =>
    match needs.lookup distName with
    | none => .error .indexError
    | some regRow =>
      let C := restrictRow ngoRow cs
      let N := restrictRow regRow cs
      match cosineUnchecked C N, urgencyOfNeeds N with
      | some mv, some u => .ok ⟨ngoName, distName, mv, (u : ℝ), m mv (u : ℝ)⟩
      | _, _ => .error .invalidInput

/-- Single-pair prediction `predict_fitness(ngo_name, region_name)` of
`NOVA/data_generation/scripts/predict.py` (lines 23–29) and
`nepal_relief_ai/scripts/predict.py` (lines 12–18): the per-pair body above,
returning `float(model.predict(X)[0])`.  Note: it performs NO membership check
and NO category-overlap check of its own. -/
noncomputable def predict_fitness (m : ℝ → ℝ → ℝ) (ngos needs : Table)
    (ngoName distName : String) : Except Err ℝ :=
  (scorePair m ngos needs (cats needs.columns ngos.columns) ngoName distName).map
    ScoredPair.fitness_score

/-- Command-line query interface of `NOVA/data_generation/scripts/predict.py`
(`__main__`, lines 32–53): check that the NGO name occurs in the capability
table and the district name in the need table, printing an error and exiting
otherwise (`unknownEntity`), and only then call `predict_fitness`. -/
noncomputable def predictCLI (m : ℝ → ℝ → ℝ) (ngos needs : Table)
    (ngoName distName : String) : Except Err ℝ :=
  if ngos.rows.all (fun r => r.key != ngoName) then .error .unknownEntity
  else if needs.rows.all (fun r => r.key != distName) then .error .unknownEntity
  else predict_fitness m ngos needs ngoName distName

/-- First-occurrence de-duplication, pandas `series.unique()`. -/
def uniqueFirst : List String → List String
  | [] => []
  | x :: xs => x :: (uniqueFirst xs).filter (fun y => y != x)

/-- Lexicographic comparison of character lists by code point, the order the
Python built-in `sorted` uses on strings. -/
def charLe : List Char → List Char → Bool
  | [], _ => true
  | _ :: _, [] => false
  | a :: as, b :: bs =>
    if a.toNat < b.toNat then true
    else if b.toNat < a.toNat then false
    else charLe as bs

/-- Code-point lexicographic order on strings (Python string comparison). -/
def strLeB (a b : String) : Bool := charLe a.data b.data

/-- Insertion of a string into a sorted list of strings. -/
def insertSorted (s : String) : List String → List String
  | [] => [s]
  | x :: xs => if strLeB s x then s :: x :: xs else x :: insertSorted s xs

/-- Insertion sort on strings; on the duplicate-free name lists produced by
`unique()` it returns the same sorted list as the Python built-in `sorted`. -/
def sortStrings : List String → List String
  | [] => []
  | x :: xs => insertSorted x (sortStrings xs)

/-- Python `sorted(series.unique())`: first occurrences, then sorted
lexicographically. -/
def uniqueSorted (l : List String) : List String := sortStrings (uniqueFirst l)

/-- Batch scorer `generate_all_scores()` of
`NOVA/data_generation/scripts/generate_all_scores.py` (lines 45–101): for every
NGO name and district name (sorted unique), run the per-pair computation inside
`try: ... except Exception: print(...); continue` — a pair that raises any
exception is logged and skipped, and the run continues to completion. -/
noncomputable def generate_all_scores (m : ℝ → ℝ → ℝ) (ngos needs : Table) :
    List ScoredPair :=
  let cs := cats needs.columns ngos.columns
  (uniqueSorted (ngos.rows.map Row.key)).flatMap (fun n =>
    (uniqueSorted (needs.rows.map Row.key)).filterMap (fun d =>
      (scorePair m ngos needs cs n d).toOption))

/-- Heuristic label of `Nova/nepal_relief_ai/scripts/compute_fitness.py`
(line 27): `score = 0.7*match + 0.3*urgency`, with the guarded cosine `match`
used RAW (no rescale from [-1,1]). -/
noncomputable def heuristicScore (mtch : ℝ) (u : ℝ) : ℝ := 0.7 * mtch + 0.3 * u

/-- One iteration of the pair loop of compute_fitness.py (lines 21–31):
guarded cosine match, mean/100 urgency, heuristic score; a NaN score is
skipped (`if np.isnan(score): continue`).  With exact rational cells the only
NaN source is the mean of an empty slice, hence the `urgencyOfNeeds` match. -/
noncomputable def fitnessRow (cs : List String) (ngoRow regRow : Row) :
    Option ScoredPair :=
  let C := restrictRow ngoRow cs
  let N := restrictRow regRow cs
  let mtch := cosine C N
  match urgencyOfNeeds N with
  | none => none
  | some u => some ⟨ngoRow.key, regRow.key, mtch, (u : ℝ), heuristicScore mtch (u : ℝ)⟩

/-- Batch heuristic scorer of `Nova/nepal_relief_ai/scripts/compute_fitness.py`
(lines 15–34): raise ValueError ("No overlapping categories") when the category
intersection is empty (line 17–18), otherwise score every (NGO row, need row)
pair with the guarded cosine and drop NaN-score rows. -/
noncomputable def compute_fitness (ngos needs : Table) : Except Err (List ScoredPair) :=
  let cs := cats needs.columns ngos.columns
  if cs.isEmpty then .error .noOverlap
  else .ok (ngos.rows.flatMap (fun ngoRow =>
    needs.rows.filterMap (fun regRow => fitnessRow cs ngoRow regRow)))

/-- Raw per-district inputs of `build_need_matrix.py`: one merged row of
`pdna_district_damage.csv` and `population_density.csv`. -/
structure DistrictRaw where
  district : String
  houses_destroyed_pct : ℚ
  water_facilities_damaged_pct : ℚ
  food_insecure_households_pct : ℚ
  road_accessibility_score : ℚ
  health_facilities_damaged_pct : ℚ
  poverty_rate : ℚ
  telecom_coverage_pct : ℚ
  displaced_pop_pct : ℚ
  public_infra_damaged_pct : ℚ
  farmland_lost_pct : ℚ
  pop_density : ℚ
deriving DecidableEq, Repr

/-- Minimum of a list of rationals; pandas column `.min()` (value irrelevant on
an empty column — the scripts run on non-empty tables). -/
def listMin : List ℚ → ℚ
  | [] => 0
  | [x] => x
  | x :: y :: xs => min x (listMin (y :: xs))

/-- Maximum of a list of rationals; pandas column `.max()`. -/
def listMax : List ℚ → ℚ
  | [] => 0
  | [x] => x
  | x :: y :: xs => max x (listMax (y :: xs))

/-- Per-column transform of `sklearn.preprocessing.MinMaxScaler((0,100))` as
applied in `build_need_matrix.py` lines 22–23: `X_std = (x - min) / range`
with the zero range replaced by 1 (sklearn `_handle_zeros_in_scale`), then
scaled into the feature range (0,100).  So a constant column maps to all
zeros, and otherwise `x ↦ (x - min) / (max - min) * 100`. -/
def minmaxScale (xs : List ℚ) : List ℚ :=
  let lo := listMin xs
  let hi := listMax xs
  let range := if hi - lo = 0 then 1 else hi - lo
  xs.map (fun x => (x - lo) / range * 100)

/-- Raw need columns of `build_need_matrix.py` lines 8–18, one list per need
column in the order of `need_cols` (line 20–21), each evaluated across the
whole district list (`wash_need` divides by the maximal population density
across all districts). -/
def rawColumns (ds : List DistrictRaw) : List (List ℚ) :=
  let maxPop := listMax (ds.map DistrictRaw.pop_density)
  [ds.map DistrictRaw.houses_destroyed_pct,
   ds.map (fun d => d.water_facilities_damaged_pct * (d.pop_density / maxPop)),
   ds.map DistrictRaw.food_insecure_households_pct,
   ds.map (fun d => 100 - d.road_accessibility_score),
   ds.map (fun d => d.houses_destroyed_pct * (100 - d.road_accessibility_score) / 100),
   ds.map DistrictRaw.health_facilities_damaged_pct,
   ds.map (fun d => d.poverty_rate * d.houses_destroyed_pct / 100),
   ds.map (fun d => 100 - d.telecom_coverage_pct),
   ds.map DistrictRaw.displaced_pop_pct,
   ds.map DistrictRaw.public_infra_damaged_pct,
   ds.map DistrictRaw.farmland_lost_pct]

/-- The Need Normalizer `build_need_matrix.py`: every raw need column is
min-max rescaled independently (line 23, `scaler.fit_transform(df[need_cols])`
fits one min and one max per column). -/
def build_need_matrix (ds : List DistrictRaw) : List (List ℚ) :=
  (rawColumns ds).map minmaxScale

/-- Urgency of `generate_ngo_scores.py` lines 29–36: a hand-weighted blend of
six RAW damage indicators divided by 100. -/
def blendUrgency (d : DistrictRaw) : ℚ :=
  (d.houses_destroyed_pct * (2/10) +
   d.health_facilities_damaged_pct * (15/100) +
   d.water_facilities_damaged_pct * (15/100) +
   d.food_insecure_households_pct * (2/10) +
   d.displaced_pop_pct * (15/100) +
   (100 - d.road_accessibility_score) * (15/100)) / 100

/-- Python `round(q, 2)` on an exact value: round to two decimal places.
Python rounds half to even; Mathlib `round` rounds half up — they agree on
every value used here (none of them is a half-way case). -/
def round2 (q : ℚ) : ℚ := (round (q * 100) : ℤ) / 100

/-- Urgency value written to `ngo_region_scores.csv` by
`generate_ngo_scores.py` line 90: `round(urgency * 100, 2)` — the blend
urgency rescaled onto a 0–100 scale. -/
def storedBlendUrgency (d : DistrictRaw) : ℚ := round2 (blendUrgency d * 100)

/-- File contents observable to a reader while
`nepal_relief_ai/scripts/train_model.py` line 17 runs
`pickle.dump(model, open("outputs/model.pkl", "wb"))`: before the call the
file holds the old artifact; `open(..., "wb")` truncates it in place to the
empty file; the pickle stream is then appended chunk by chunk until the new
artifact is complete.  Contents are modelled as byte lists. -/
def inPlaceWriteStates (oldArtifact newArtifact : List ℕ) : List (List ℕ) :=
  oldArtifact :: (List.range (newArtifact.length + 1)).map (fun k => newArtifact.take k)

/-- Concrete two-district damage table used to witness the normalizer
theorems. -/
def dsEx : List DistrictRaw :=
  [⟨"Sindhupalchok", 80, 40, 30, 20, 50, 25, 60, 10, 20, 30, 100⟩,
   ⟨"Kathmandu", 10, 20, 60, 90, 10, 15, 95, 40, 10, 5, 200⟩]

/-- The first raw need column (`shelter_need`) over `dsEx`. -/
def rawEx : List ℚ := dsEx.map DistrictRaw.houses_destroyed_pct

/-- District with every damage indicator at 100 and road accessibility 0,
the most urgent possible input. -/
def dAll : DistrictRaw := ⟨"Everest", 100, 100, 100, 0, 100, 100, 100, 100, 100, 100, 100⟩

/-- Capability table with a single NGO, used as concrete input. -/
def ngosEx : Table :=
  ⟨"NGO", ["Emergency Health Response"],
   [⟨"Red Cross", [("Emergency Health Response", 1)]⟩]⟩

/-- Need table with a single district, used as concrete input. -/
def needsEx : Table :=
  ⟨"district", ["Emergency Health Response"],
   [⟨"Sindhupalchok", [("Emergency Health Response", 50)]⟩]⟩

/-- Constant regression model, standing in for an arbitrary frozen pickle. -/
noncomputable def mZero : ℝ → ℝ → ℝ := fun _ _ => 0

/-- Capability table whose single NGO declares zero capacity in the one shared
category (a zero-norm capability vector). -/
def ngosZero : Table :=
  ⟨"NGO", ["Emergency Health Response"],
   [⟨"NoCapacity Org", [("Emergency Health Response", 0)]⟩]⟩

/-- The single pair emitted by the batch heuristic scorer on `ngosZero` /
`needsEx`. -/
noncomputable def spZero : ScoredPair :=
  ⟨"NoCapacity Org", "Sindhupalchok", 0, 1/2, 0.7 * 0 + 0.3 * (1/2)⟩

/-- Need table and capability table sharing no category column. -/
def needsDisjoint : Table :=
  ⟨"district", ["Agricultural Recovery"], [⟨"D1", [("Agricultural Recovery", 10)]⟩]⟩

/-- Capability table disjoint from `needsDisjoint` in categories. -/
def ngosDisjoint : Table :=
  ⟨"NGO", ["Emergency Communications"], [⟨"N1", [("Emergency Communications", 1)]⟩]⟩

/-- Capability table with one zero-capacity NGO and one unit-capacity NGO. -/
def ngosTwo : Table :=
  ⟨"NGO", ["Emergency Health Response"],
   [⟨"NoCapacity Org", [("Emergency Health Response", 0)]⟩,
    ⟨"Unit Org", [("Emergency Health Response", 1)]⟩]⟩

/-- Need row whose shared components are all equal. -/
def regEqual : Row :=
  ⟨"Balanced", [("Emergency Food Distribution", 50), ("Agricultural Recovery", 50)]⟩

/-- Need row whose shared components differ. -/
def regSkew : Row :=
  ⟨"Gorkha", [("Emergency Food Distribution", 90), ("Agricultural Recovery", 30)]⟩

theorem listMin_mem : ∀ (x : ℚ) (xs : List ℚ), listMin (x :: xs) ∈ x :: xs
  | _, [] => List.mem_singleton.mpr rfl
  | x, y :: xs => by
    show min x (listMin (y :: xs)) ∈ x :: y :: xs
    rcases min_cases x (listMin (y :: xs)) with ⟨h, _⟩ | ⟨h, _⟩
    · rw [h]; exact List.mem_cons_self _ _
    · rw [h]; exact List.mem_cons_of_mem x (listMin_mem y xs)

theorem listMin_le : ∀ (x : ℚ) (xs : List ℚ), ∀ y ∈ x :: xs, listMin (x :: xs) ≤ y
  | _, [], y, hy => by
    simp only [List.mem_singleton] at hy
    subst hy
    exact le_rfl
  | x, z :: xs, y, hy => by
    show min x (listMin (z :: xs)) ≤ y
    rcases List.mem_cons.mp hy with h | h
    · subst h
      exact min_le_left _ _
    · exact le_trans (min_le_right _ _) (listMin_le z xs y h)

theorem listMax_mem : ∀ (x : ℚ) (xs : List ℚ), listMax (x :: xs) ∈ x :: xs
  | _, [] => List.mem_singleton.mpr rfl
  | x, y :: xs => by
    show max x (listMax (y :: xs)) ∈ x :: y :: xs
    rcases max_cases x (listMax (y :: xs)) with ⟨h, _⟩ | ⟨h, _⟩
    · rw [h]; exact List.mem_cons_self _ _
    · rw [h]; exact List.mem_cons_of_mem x (listMax_mem y xs)

theorem le_listMax : ∀ (x : ℚ) (xs : List ℚ), ∀ y ∈ x :: xs, y ≤ listMax (x :: xs)
  | _, [], y, hy => by
    simp only [List.mem_singleton] at hy
    subst hy
    exact le_rfl
  | x, z :: xs, y, hy => by
    show y ≤ max x (listMax (z :: xs))
    rcases List.mem_cons.mp hy with h | h
    · subst h
      exact le_max_left _ _
    · exact le_trans (le_listMax z xs y h) (le_max_right _ _)

theorem listMin_map_comm (g : ℚ → ℚ) (hg : ∀ a b, g (min a b) = min (g a) (g b)) :
    ∀ (x : ℚ) (xs : List ℚ), listMin ((x :: xs).map g) = g (listMin (x :: xs))
  | _, [] => rfl
  | x, y :: xs => by
    have ih := listMin_map_comm g hg y xs
    show min (g x) (listMin ((y :: xs).map g)) = g (min x (listMin (y :: xs)))
    rw [ih, hg]

theorem listMax_map_comm (g : ℚ → ℚ) (hg : ∀ a b, g (max a b) = max (g a) (g b)) :
    ∀ (x : ℚ) (xs : List ℚ), listMax ((x :: xs).map g) = g (listMax (x :: xs))
  | _, [] => rfl
  | x, y :: xs => by
    have ih := listMax_map_comm g hg y xs
    show max (g x) (listMax ((y :: xs).map g)) = g (max x (listMax (y :: xs)))
    rw [ih, hg]

theorem listMin_le_listMax (x : ℚ) (xs : List ℚ) :
    listMin (x :: xs) ≤ listMax (x :: xs) :=
  le_trans (listMin_le x xs _ (listMax_mem x xs)) le_rfl

theorem minmaxScale_const (x : ℚ) (xs : List ℚ)
    (h : listMin (x :: xs) = listMax (x :: xs)) :
    ∀ y ∈ minmaxScale (x :: xs), y = 0 := by
  intro y hy
  simp only [minmaxScale, List.mem_map] at hy
  obtain ⟨t, ht, rfl⟩ := hy
  have h1 : listMin (x :: xs) ≤ t := listMin_le x xs t ht
  have h2 : t ≤ listMax (x :: xs) := le_listMax x xs t ht
  have : t = listMin (x :: xs) := le_antisymm (h ▸ h2) h1
  rw [this]
  ring

theorem minmaxScale_bounds (x : ℚ) (xs : List ℚ)
    (h : listMin (x :: xs) ≠ listMax (x :: xs)) :
    listMin (minmaxScale (x :: xs)) = 0 ∧ listMax (minmaxScale (x :: xs)) = 100 := by
  set lo := listMin (x :: xs) with hlo
  set hi := listMax (x :: xs) with hhi
  have hlt : lo < hi := lt_of_le_of_ne (listMin_le_listMax x xs) h
  have hr : hi - lo ≠ 0 := sub_ne_zero.mpr (ne_of_gt hlt)
  have hrpos : (0:ℚ) < hi - lo := sub_pos.mpr hlt
  have hunfold : minmaxScale (x :: xs) =
      (x :: xs).map (fun t => (t - lo) / (hi - lo) * 100) := by
    simp only [minmaxScale, ← hlo, ← hhi, if_neg hr]
  have hg : ∀ a b : ℚ, (min a b - lo) / (hi - lo) * 100 =
      min ((a - lo) / (hi - lo) * 100) ((b - lo) / (hi - lo) * 100) := by
    intro a b
    rcases le_total a b with hab | hab
    · rw [min_eq_left hab, min_eq_left]
      gcongr
    · rw [min_eq_right hab, min_eq_right]
      gcongr
  have hG : ∀ a b : ℚ, (max a b - lo) / (hi - lo) * 100 =
      max ((a - lo) / (hi - lo) * 100) ((b - lo) / (hi - lo) * 100) := by
    intro a b
    rcases le_total a b with hab | hab
    · rw [max_eq_right hab, max_eq_right]
      gcongr
    · rw [max_eq_left hab, max_eq_left]
      gcongr
  constructor
  · rw [hunfold, listMin_map_comm _ hg, ← hlo]
    simp
  · rw [hunfold, listMax_map_comm _ hG, ← hhi]
    field_simp

theorem rawColumns_ne_nil (ds : List DistrictRaw) (hds : ds ≠ [])
    (raw : List ℚ) (hraw : raw ∈ rawColumns ds) : raw ≠ [] := by
  simp only [rawColumns, List.mem_cons, List.not_mem_nil, or_false] at hraw
  rcases hraw with h|h|h|h|h|h|h|h|h|h|h <;> subst h <;> simpa using hds

/-- C1: every need column produced by the Need Normalizer
(`build_need_matrix.py`) is the min-max rescale of a raw need column, and over
a non-empty district table the normalized column has minimum 0 and maximum 100
unless the raw column is constant across districts, in which case every
normalized value is 0. -/
theorem need_normalization_minmax (ds : List DistrictRaw) (hds : ds ≠ [])
    (raw : List ℚ) (hraw : raw ∈ rawColumns ds) :
    minmaxScale raw ∈ build_need_matrix ds ∧
    (listMin raw = listMax raw → ∀ y ∈ minmaxScale raw, y = 0) ∧
    (listMin raw ≠ listMax raw →
      listMin (minmaxScale raw) = 0 ∧ listMax (minmaxScale raw) = 100) := by
  obtain ⟨x, xs, rfl⟩ := List.exists_cons_of_ne_nil (rawColumns_ne_nil ds hds raw hraw)
  exact ⟨List.mem_map_of_mem minmaxScale hraw,
    fun h => minmaxScale_const x xs h,
    fun h => minmaxScale_bounds x xs h⟩

theorem need_normalization_minmax_witness :
    listMin (minmaxScale rawEx) = 0 ∧ listMax (minmaxScale rawEx) = 100 :=
  (need_normalization_minmax dsEx (by decide) rawEx (by decide)).2.2 (by decide)

/-- C2 counterexample: the claim says every code path that computes match
returns exactly 0.0 on a zero-norm vector, but the cosine of predict.py and
generate_all_scores.py is unguarded: on the zero vector it evaluates 0.0/0.0,
i.e. NaN (`none`), not 0.0. -/
theorem zero_norm_match_nan_counterexample :
    cosineUnchecked [0, 0] [3, 4] = none := by
  unfold cosineUnchecked
  exact if_pos (Or.inl (by norm_num [normSq]))

/-- C2 (amended): when either input vector has zero Euclidean norm, the guarded
cosine of compute_fitness.py returns exactly 0.0 (no exception, no NaN), but
the unguarded cosine shared by both predict.py scripts and
generate_all_scores.py produces NaN instead. -/
theorem zero_norm_match_policy (a b : List ℚ) (h : normSq a = 0 ∨ normSq b = 0) :
    cosine a b = 0 ∧ cosineUnchecked a b = none := by
  unfold cosine cosineUnchecked
  rw [if_pos h, if_pos h]
  exact ⟨rfl, rfl⟩

theorem zero_norm_match_policy_witness :
    cosine [0, 0, 0] [1, 2, 3] = 0 ∧ cosineUnchecked [0, 0, 0] [1, 2, 3] = none :=
  zero_norm_match_policy [0, 0, 0] [1, 2, 3] (Or.inl (by norm_num [normSq]))

/-- C3 counterexample: the weighted-blend scoring path of
generate_ngo_scores.py stores urgency `round(blend * 100, 2)` on a 0–100
scale: for the maximally damaged district it stores 100, while the
mean-of-need-vector convention yields 1 for the corresponding all-100 need
vector — the value stored by this scoring path is not in [0,1] and the
convention is not consistent across paths. -/
theorem urgency_convention_counterexample :
    storedBlendUrgency dAll = 100 ∧ ¬ storedBlendUrgency dAll ≤ 1 ∧
      urgencyOfNeeds (List.replicate 11 100) = some 1 := by
  have h : storedBlendUrgency dAll = 100 := by
    norm_num [storedBlendUrgency, blendUrgency, round2, dAll, round_eq]
  refine ⟨h, by rw [h]; norm_num, ?_⟩
  norm_num [urgencyOfNeeds, meanOpt, List.replicate]

/-- C3 (amended): in the cosine-based scoring paths (predict.py,
compute_fitness.py, generate_all_scores.py) urgency is the mean of the need
components used for scoring divided by 100, lies in [0,1], and is 1 for an
all-100 need vector and 0 for an all-0 one; generate_ngo_scores.py instead
uses a hand-weighted blend of raw damage indicators stored on a 0–100 scale,
so the convention is not used consistently by every scoring path. -/
theorem urgency_mean_convention (n : List ℚ) (h1 : n ≠ [])
    (h2 : ∀ x ∈ n, 0 ≤ x ∧ x ≤ 100) :
    urgencyOfNeeds n = some (n.sum / n.length / 100) ∧
    0 ≤ n.sum / n.length / 100 ∧ n.sum / n.length / 100 ≤ 1 ∧
    (n = List.replicate n.length 100 → n.sum / n.length / 100 = 1) ∧
    (n = List.replicate n.length 0 → n.sum / n.length / 100 = 0) := by
  have hlen : (0:ℚ) < n.length := by
    have := List.length_pos.mpr h1
    exact_mod_cast this
  refine ⟨?_, ?_, ?_, ?_, ?_⟩
  · simp [urgencyOfNeeds, meanOpt, List.isEmpty_iff, h1]
  · have hsum : 0 ≤ n.sum := List.sum_nonneg (fun x hx => (h2 x hx).1)
    positivity
  · have hsum : n.sum ≤ n.length * 100 := by
      have := List.sum_le_card_nsmul n 100 (fun x hx => (h2 x hx).2)
      simpa [nsmul_eq_mul] using this
    rw [div_div, div_le_one (by positivity)]
    linarith
  · intro hrep
    have hsum : n.sum = n.length * 100 := by
      conv_lhs => rw [hrep]
      simp [List.sum_replicate, nsmul_eq_mul]
    rw [hsum]
    field_simp
  · intro hrep
    have hsum : n.sum = 0 := by
      conv_lhs => rw [hrep]
      simp [List.sum_replicate]
    rw [hsum]
    simp

theorem urgency_mean_convention_witness :
    urgencyOfNeeds [100, 100] = some ([100, 100].sum / ([100, 100].length : ℚ) / 100) ∧
      [100, 100].sum / (([100, 100] : List ℚ).length : ℚ) / 100 = 1 :=
  ⟨(urgency_mean_convention [100, 100] (by simp) (by intro x hx; fin_cases hx <;> norm_num)).1,
   (urgency_mean_convention [100, 100] (by simp)
      (by intro x hx; fin_cases hx <;> norm_num)).2.2.2.1 rfl⟩

/-- C5: querying an NGO name absent from the capability table (or a district
name absent from the need table) through the command-line query interface of
NOVA predict.py yields the structured not-found error and never a fitness
value; the underlying `predict_fitness` also fails (IndexError from
`.values[0]`) rather than returning any fallback. -/
theorem unknown_entity_no_fallback (m : ℝ → ℝ → ℝ) (ngos needs : Table)
    (ngoName distName : String) :
    ((∀ r ∈ ngos.rows, r.key ≠ ngoName) →
        predictCLI m ngos needs ngoName distName = .error .unknownEntity ∧
        predict_fitness m ngos needs ngoName distName = .error .indexError) ∧
    ((∀ r ∈ needs.rows, r.key ≠ distName) →
        predictCLI m ngos needs ngoName distName = .error .unknownEntity) := by
  constructor
  · intro h
    have hall : ngos.rows.all (fun r => r.key != ngoName) = true := by
      rw [List.all_eq_true]
      intro r hr
      exact bne_iff_ne.mpr (h r hr)
    have hnone : ngos.lookup ngoName = none := by
      unfold Table.lookup
      rw [List.find?_eq_none]
      intro r hr
      simpa using h r hr
    constructor
    · unfold predictCLI
      rw [if_pos hall]
    · simp [predict_fitness, scorePair, hnone, Except.map]
  · intro h
    have hall : needs.rows.all (fun r => r.key != distName) = true := by
      rw [List.all_eq_true]
      intro r hr
      exact bne_iff_ne.mpr (h r hr)
    unfold predictCLI
    by_cases hng : ngos.rows.all (fun r => r.key != ngoName) = true
    · rw [if_pos hng]
    · rw [if_neg hng, if_pos hall]

theorem unknown_entity_no_fallback_witness :
    predictCLI mZero ngosEx needsEx "Oxfam" "Sindhupalchok" = .error .unknownEntity ∧
    predict_fitness mZero ngosEx needsEx "Oxfam" "Sindhupalchok" = .error .indexError :=
  (unknown_entity_no_fallback mZero ngosEx needsEx "Oxfam" "Sindhupalchok").1 (by decide)

/-- C9 counterexample: lookups in the scoring scripts match names by exact
string equality, so "red cross" and " Red Cross" do NOT identify the entity
keyed "Red Cross", contrary to the claimed case-insensitive,
whitespace-trimmed matching. -/
theorem name_matching_counterexample :
    ngosEx.lookup "red cross" = none ∧ ngosEx.lookup " Red Cross" = none ∧
      (ngosEx.lookup "Red Cross").isSome = true := by
  refine ⟨by decide, by decide, by decide⟩

/-- C9 (amended): every lookup keyed by district or NGO name in the scoring
and prediction scripts uses exact, case-sensitive, untrimmed string equality:
a lookup only ever returns a row whose key is literally the queried string,
and returns nothing when no key is literally equal. -/
theorem name_matching_exact (t : Table) (n : String) :
    (∀ r, t.lookup n = some r → r.key = n) ∧
    ((∀ r ∈ t.rows, r.key ≠ n) → t.lookup n = none) := by
  constructor
  · intro r hr
    have := List.find?_some hr
    simpa using this
  · intro h
    unfold Table.lookup
    rw [List.find?_eq_none]
    intro r hr
    simpa using h r hr

theorem name_matching_exact_witness : ngosEx.lookup "RED CROSS" = none :=
  (name_matching_exact ngosEx "RED CROSS").2 (by decide)

theorem normSq_nonneg (a : List ℚ) : 0 ≤ normSq a := by
  unfold normSq
  apply List.sum_nonneg
  intro y hy
  rw [List.mem_map] at hy
  obtain ⟨x, _, rfl⟩ := hy
  exact mul_self_nonneg x

theorem dot_sq_le : ∀ (a b : List ℚ), (dot a b) ^ 2 ≤ normSq a * normSq b := by
  intro a
  induction a with
  | nil => intro b; simp [dot, normSq]
  | cons x a ih =>
    intro b
    cases b with
    | nil => simp [dot, normSq]
    | cons y b =>
      have hA := normSq_nonneg a
      have hB := normSq_nonneg b
      have hIH := ih b
      have hdot : dot (x :: a) (y :: b) = x * y + dot a b := by simp [dot]
      have hna : normSq (x :: a) = x * x + normSq a := by simp [normSq]
      have hnb : normSq (y :: b) = y * y + normSq b := by simp [normSq]
      rw [hdot, hna, hnb]
      rcases eq_or_lt_of_le hB with hB0 | hBpos
      · have hzero : dot a b ^ 2 = 0 := by
          refine le_antisymm ?_ (sq_nonneg _)
          calc dot a b ^ 2 ≤ normSq a * normSq b := hIH
            _ = 0 := by rw [← hB0, mul_zero]
        have hd : dot a b = 0 := pow_eq_zero_iff (two_ne_zero) |>.mp hzero
        rw [hd, ← hB0]
        nlinarith [mul_nonneg hA (sq_nonneg y)]
      · nlinarith [sq_nonneg (x * normSq b - y * dot a b),
          mul_nonneg (sq_nonneg y) (sub_nonneg.mpr hIH),
          mul_nonneg hBpos.le (sub_nonneg.mpr hIH)]

theorem cosine_abs_le_one (a b : List ℚ) : |cosine a b| ≤ 1 := by
  unfold cosine
  split
  · simp
  · rename_i h
    push_neg at h
    obtain ⟨ha, hb⟩ := h
    have hA : (0:ℚ) < normSq a := lt_of_le_of_ne (normSq_nonneg a) (Ne.symm ha)
    have hB : (0:ℚ) < normSq b := lt_of_le_of_ne (normSq_nonneg b) (Ne.symm hb)
    have hsA : (0:ℝ) < norm2 a := by
      rw [norm2]
      exact Real.sqrt_pos.mpr (by exact_mod_cast hA)
    have hsB : (0:ℝ) < norm2 b := by
      rw [norm2]
      exact Real.sqrt_pos.mpr (by exact_mod_cast hB)
    have hden : (0:ℝ) < norm2 a * norm2 b := mul_pos hsA hsB
    rw [abs_div, abs_of_pos hden, div_le_one hden]
    calc |(dot a b : ℝ)|
        = Real.sqrt ((dot a b : ℝ) ^ 2) := (Real.sqrt_sq_eq_abs _).symm
      _ ≤ Real.sqrt ((normSq a : ℝ) * (normSq b : ℝ)) := by
          apply Real.sqrt_le_sqrt
          exact_mod_cast dot_sq_le a b
      _ = norm2 a * norm2 b := by
          rw [norm2, norm2, Real.sqrt_mul (by positivity)]

theorem lookup_mem_pairs :
    ∀ (l : List (String × ℚ)) (c : String) (v : ℚ), l.lookup c = some v → (c, v) ∈ l := by
  intro l
  induction l with
  | nil => intro c v h; simp [List.lookup] at h
  | cons p l ih =>
    intro c v h
    obtain ⟨k, w⟩ := p
    simp only [List.lookup] at h
    cases hck : (c == k) with
    | true =>
      rw [hck] at h
      simp only [Option.some.injEq] at h
      subst h
      have : c = k := by simpa using hck
      subst this
      exact List.mem_cons_self _ _
    | false =>
      rw [hck] at h
      exact List.mem_cons_of_mem _ (ih c v h)

theorem getCell_bounds (r : Row) (h : ∀ p ∈ r.cells, 0 ≤ p.2 ∧ p.2 ≤ 100)
    (c : String) : 0 ≤ getCell r c ∧ getCell r c ≤ 100 := by
  unfold getCell
  cases hl : r.cells.lookup c with
  | none => simp
  | some v =>
    simp only [Option.getD_some]
    exact h (c, v) (lookup_mem_pairs r.cells c v hl)

/-- C4 counterexample: the heuristic label of compute_fitness.py at a concrete
zero-capability pair is 0.7*0 + 0.3*(1/2) = 0.15, whereas the claimed formula
0.7*((match+1)/2) + 0.3*urgency would give 0.5 — the code applies no
(match+1)/2 rescale. -/
theorem heuristic_label_counterexample :
    compute_fitness
        ⟨"NGO", ["Emergency Health Response"],
         [⟨"NoCapacity Org", [("Emergency Health Response", 0)]⟩]⟩
        needsEx =
      .ok [⟨"NoCapacity Org", "Sindhupalchok", 0, 1/2, 0.7 * 0 + 0.3 * (1/2)⟩] ∧
    (0.7 * 0 + 0.3 * (1/2) : ℝ) ≠ 0.7 * ((0 + 1) / 2) + 0.3 * (1/2) := by
  constructor
  · have hcos : cosine [0] [50] = 0 := by
      unfold cosine
      exact if_pos (Or.inl (by norm_num [normSq]))
    simp [compute_fitness, cats, Table.columns, needsEx, fitnessRow, restrictRow,
      getCell, urgencyOfNeeds, meanOpt, heuristicScore, List.lookup, hcos]
    norm_num
  · norm_num

/-- C4 (amended): every (NGO, district) pair emitted by the batch heuristic
scorer compute_fitness.py carries label = 0.7 × match + 0.3 × urgency with the
cosine match used RAW (no rescale of match from [-1,1] to a non-negative
contribution); when all need cells lie in [0,100] the label lies in
[-0.7, 1] — not on a [0,100] scale. -/
theorem heuristic_label_formula (ngos needs : Table) (ps : List ScoredPair)
    (hps : compute_fitness ngos needs = .ok ps)
    (hcells : ∀ r ∈ needs.rows, ∀ p ∈ r.cells, 0 ≤ p.2 ∧ p.2 ≤ 100) :
    ∀ sp ∈ ps, sp.fitness_score = 0.7 * sp.matchScore + 0.3 * sp.urgency ∧
      -0.7 ≤ sp.fitness_score ∧ sp.fitness_score ≤ 1 := by
  intro sp hsp
  simp only [compute_fitness] at hps
  split at hps
  · exact absurd hps (by simp)
  · rename_i hcs
    rw [Except.ok.injEq] at hps
    subst hps
    rw [List.mem_flatMap] at hsp
    obtain ⟨ngoRow, hngo, hsp⟩ := hsp
    rw [List.mem_filterMap] at hsp
    obtain ⟨regRow, hreg, hrow⟩ := hsp
    simp only [fitnessRow] at hrow
    cases hu : urgencyOfNeeds (restrictRow regRow (cats needs.columns ngos.columns)) with
    | none => rw [hu] at hrow; simp at hrow
    | some u =>
      rw [hu] at hrow
      simp only [Option.some.injEq] at hrow
      subst hrow
      have hN : ∀ x ∈ restrictRow regRow (cats needs.columns ngos.columns),
          0 ≤ x ∧ x ≤ 100 := by
        intro x hx
        rw [restrictRow, List.mem_map] at hx
        obtain ⟨c, _, rfl⟩ := hx
        exact getCell_bounds regRow (hcells regRow hreg) c
      have hNe : restrictRow regRow (cats needs.columns ngos.columns) ≠ [] := by
        rw [restrictRow]
        intro hnil
        rw [List.map_eq_nil_iff] at hnil
        exact hcs (by simp [hnil])
      obtain ⟨hconv, hge, hle, _, _⟩ := urgency_mean_convention _ hNe hN
      rw [hu, Option.some.injEq] at hconv
      have habs := cosine_abs_le_one
        (restrictRow ngoRow (cats needs.columns ngos.columns))
        (restrictRow regRow (cats needs.columns ngos.columns))
      rw [abs_le] at habs
      have hge2 : (0:ℝ) ≤ (u:ℝ) := by
        rw [hconv]; exact_mod_cast hge
      have hle2 : (u:ℝ) ≤ 1 := by
        rw [hconv]; exact_mod_cast hle
      refine ⟨by simp [heuristicScore], ?_, ?_⟩ <;>
        simp only [heuristicScore] <;> nlinarith [habs.1, habs.2]

theorem compute_fitness_ngosZero_eval :
    compute_fitness ngosZero needsEx = .ok [spZero] := by
  have hcos : cosine [0] [50] = 0 := by
    unfold cosine
    exact if_pos (Or.inl (by norm_num [normSq]))
  simp [compute_fitness, cats, Table.columns, ngosZero, needsEx, fitnessRow,
    restrictRow, getCell, urgencyOfNeeds, meanOpt, heuristicScore, List.lookup,
    hcos, spZero]
  norm_num

theorem heuristic_label_formula_witness :
    spZero.fitness_score = 0.7 * spZero.matchScore + 0.3 * spZero.urgency ∧
      -0.7 ≤ spZero.fitness_score ∧ spZero.fitness_score ≤ 1 :=
  heuristic_label_formula ngosZero needsEx [spZero] compute_fitness_ngosZero_eval
    (by
      intro r hr p hp
      simp only [needsEx] at hr
      rw [List.mem_singleton] at hr
      subst hr
      rw [List.mem_singleton] at hp
      subst hp
      norm_num)
    spZero (List.mem_singleton.mpr rfl)

theorem predict_fitness_never_noOverlap (m : ℝ → ℝ → ℝ) (ngos needs : Table)
    (n d : String) : predict_fitness m ngos needs n d ≠ .error .noOverlap := by
  intro hcontra
  simp only [predict_fitness, scorePair] at hcontra
  split at hcontra
  · simp [Except.map] at hcontra
  · split at hcontra
    · simp [Except.map] at hcontra
    · split at hcontra
      · simp [Except.map] at hcontra
      · simp [Except.map] at hcontra

/-- C6 counterexample: on tables sharing no category, single-pair prediction
does not fail with the no-overlap error: predict.py performs no intersection
check, computes NaN match and urgency from the empty restricted vectors, and
fails only at sklearn input validation. -/
theorem no_overlap_counterexample :
    predict_fitness mZero ngosDisjoint needsDisjoint "N1" "D1" = .error .invalidInput ∧
      (Except.error Err.invalidInput : Except Err ℝ) ≠ .error .noOverlap := by
  constructor
  · simp [predict_fitness, scorePair, ngosDisjoint, needsDisjoint, Table.lookup,
      cats, Table.columns, restrictRow, cosineUnchecked, urgencyOfNeeds, meanOpt,
      normSq, Except.map]
  · simp

/-- C6 (amended): on an empty category intersection the batch scorer
compute_fitness.py fails with the no-overlap error before computing any score,
but the single-pair predict_fitness of both predict.py scripts performs no
such check and can never return the no-overlap error: it computes NaN
match/urgency from the empty vectors and fails only downstream at model input
validation. -/
theorem no_overlap_check_disparity (ngos needs : Table)
    (h : cats needs.columns ngos.columns = []) :
    compute_fitness ngos needs = .error .noOverlap ∧
    ∀ (m : ℝ → ℝ → ℝ) (n d : String),
      predict_fitness m ngos needs n d ≠ .error .noOverlap := by
  constructor
  · simp [compute_fitness, h]
  · intro m n d
    exact predict_fitness_never_noOverlap m ngos needs n d

theorem no_overlap_check_disparity_witness :
    compute_fitness ngosDisjoint needsDisjoint = .error .noOverlap :=
  (no_overlap_check_disparity ngosDisjoint needsDisjoint (by decide)).1

theorem scorePair_ok_keys (m : ℝ → ℝ → ℝ) (ngos needs : Table) (cs : List String)
    (n d : String) (sp : ScoredPair)
    (h : scorePair m ngos needs cs n d = .ok sp) : sp.ngo = n ∧ sp.district = d := by
  simp only [scorePair] at h
  split at h
  · exact absurd h (by simp)
  · split at h
    · exact absurd h (by simp)
    · split at h
      · rw [Except.ok.injEq] at h
        subst h
        exact ⟨rfl, rfl⟩
      · exact absurd h (by simp)

/-- C7 (amended): generate_all_scores.py wraps each (NGO, district) pair in a
try/except that logs and continues, so no per-pair error aborts the run: an
erroring pair's row is silently omitted from the output while every other
pair is still scored.  In particular a zero-norm pair is dropped through a
swallowed model-input error rather than being scored with match 0.0. -/
theorem per_pair_errors_skipped (m : ℝ → ℝ → ℝ) (ngos needs : Table)
    (n d : String) (e : Err)
    (h : scorePair m ngos needs (cats needs.columns ngos.columns) n d = .error e) :
    (n, d) ∉ (generate_all_scores m ngos needs).map
      (fun sp => (sp.ngo, sp.district)) := by
  intro hmem
  rw [List.mem_map] at hmem
  obtain ⟨sp, hsp, hkey⟩ := hmem
  rw [Prod.mk.injEq] at hkey
  have hknd : sp.ngo = n ∧ sp.district = d := hkey
  simp only [generate_all_scores] at hsp
  rw [List.mem_flatMap] at hsp
  obtain ⟨n2, _, hsp⟩ := hsp
  rw [List.mem_filterMap] at hsp
  obtain ⟨d2, _, hok⟩ := hsp
  cases hsc : scorePair m ngos needs (cats needs.columns ngos.columns) n2 d2 with
  | error e2 =>
    rw [hsc] at hok
    simp [Except.toOption] at hok
  | ok sp2 =>
    rw [hsc] at hok
    simp only [Except.toOption, Option.some.injEq] at hok
    subst hok
    obtain ⟨k1, k2⟩ := scorePair_ok_keys m ngos needs _ n2 d2 sp2 hsc
    have hn2 : n2 = n := by rw [← k1]; exact hknd.1
    have hd2 : d2 = d := by rw [← k2]; exact hknd.2
    rw [hn2, hd2] at hsc
    rw [hsc] at h
    exact absurd h (by simp)

/-- C7 counterexample: a concrete run of generate_all_scores.py in which the
zero-capacity pair raises a model-input error (NaN match from the unguarded
cosine), the error is swallowed by the per-pair try/except, the pair's row is
silently omitted, and the run still completes with the remaining pair — no
abort, and no zero-norm match = 0.0 row. -/
theorem scorePair_zero_capacity_eval :
    scorePair mZero ngosTwo needsEx (cats needsEx.columns ngosTwo.columns)
      "NoCapacity Org" "Sindhupalchok" = .error .invalidInput := by
  rw [(by decide : cats needsEx.columns ngosTwo.columns = ["Emergency Health Response"])]
  simp [scorePair, Table.lookup, ngosTwo, needsEx, restrictRow, getCell,
    cosineUnchecked, urgencyOfNeeds, meanOpt, normSq, List.lookup]

theorem swallowed_error_counterexample :
    scorePair mZero ngosTwo needsEx (cats needsEx.columns ngosTwo.columns)
        "NoCapacity Org" "Sindhupalchok" = .error .invalidInput ∧
    (generate_all_scores mZero ngosTwo needsEx).map
        (fun sp => (sp.ngo, sp.district)) = [("Unit Org", "Sindhupalchok")] := by
  have hcats : cats needsEx.columns ngosTwo.columns = ["Emergency Health Response"] := by
    decide
  have hu1 : uniqueSorted (ngosTwo.rows.map Row.key) = ["NoCapacity Org", "Unit Org"] := by
    decide
  have hu2 : uniqueSorted (needsEx.rows.map Row.key) = ["Sindhupalchok"] := by
    decide
  have hsN := scorePair_zero_capacity_eval
  refine ⟨hsN, ?_⟩
  simp only [generate_all_scores, hu1, hu2, hcats]
  rw [hcats] at hsN
  simp [List.flatMap, List.filterMap, hsN, Except.toOption, scorePair,
    Table.lookup, ngosTwo, needsEx, restrictRow, getCell, cosineUnchecked,
    urgencyOfNeeds, meanOpt, normSq, List.lookup, mZero]

theorem per_pair_errors_skipped_witness :
    ("NoCapacity Org", "Sindhupalchok") ∉
      (generate_all_scores mZero ngosTwo needsEx).map
        (fun sp => (sp.ngo, sp.district)) :=
  per_pair_errors_skipped mZero ngosTwo needsEx "NoCapacity Org" "Sindhupalchok"
    .invalidInput scorePair_zero_capacity_eval

/-- C8 counterexample: while train_model.py rewrites outputs/model.pkl through
`pickle.dump(model, open(path, "wb"))`, a reader can observe the truncated
empty file — a state that is neither the old artifact nor the completed new
one, so the old model does not remain valid until the new one is fully
written. -/
theorem atomic_replace_counterexample :
    [] ∈ inPlaceWriteStates [1] [2, 3] ∧ ([] : List ℕ) ≠ [1] ∧
      ([] : List ℕ) ≠ [2, 3] := by
  refine ⟨?_, by decide, by decide⟩
  decide

/-- C8 (amended): training persists the model by truncating outputs/model.pkl
in place (`open(..., "wb")`) and then streaming the pickle into it, so for any
non-empty old and new artifacts some observable intermediate file state is
neither the old artifact nor the completed new one: replacement is not
atomic. -/
theorem inplace_write_partial_state (oldArtifact newArtifact : List ℕ)
    (h1 : oldArtifact ≠ []) (h2 : newArtifact ≠ []) :
    ∃ s ∈ inPlaceWriteStates oldArtifact newArtifact,
      s ≠ oldArtifact ∧ s ≠ newArtifact := by
  refine ⟨[], ?_, Ne.symm h1, Ne.symm h2⟩
  unfold inPlaceWriteStates
  apply List.mem_cons_of_mem
  rw [List.mem_map]
  exact ⟨0, List.mem_range.mpr (Nat.succ_pos _), rfl⟩

theorem inplace_write_partial_state_witness :
    ∃ s ∈ inPlaceWriteStates [7, 7] [8, 9],
      s ≠ [7, 7] ∧ s ≠ [8, 9] :=
  inplace_write_partial_state [7, 7] [8, 9] (by decide) (by decide)

theorem urgencyOfNeeds_of_ne_nil (n : List ℚ) (h : n ≠ []) :
    urgencyOfNeeds n = some (n.sum / n.length / 100) := by
  simp [urgencyOfNeeds, meanOpt, List.isEmpty_iff, h]

/-- C10 counterexample: removing a capability column does NOT change the
urgency returned for every district: for a district whose shared need
components are all equal, the mean over the reduced intersection — and hence
the urgency — is unchanged. -/
theorem urgency_column_removal_counterexample :
    cats ["district", "Emergency Food Distribution", "Agricultural Recovery"]
         ["NGO", "Emergency Food Distribution", "Agricultural Recovery"] =
      ["Emergency Food Distribution", "Agricultural Recovery"] ∧
    cats ["district", "Emergency Food Distribution", "Agricultural Recovery"]
         ["NGO", "Agricultural Recovery"] = ["Agricultural Recovery"] ∧
    urgencyOfNeeds (restrictRow regEqual
        ["Emergency Food Distribution", "Agricultural Recovery"]) = some (1/2) ∧
    urgencyOfNeeds (restrictRow regEqual ["Agricultural Recovery"]) = some (1/2) := by
  have hne : ("Agricultural Recovery" == "Emergency Food Distribution") = false := by
    decide
  refine ⟨by decide, by decide, ?_, ?_⟩ <;>
    norm_num [urgencyOfNeeds, meanOpt, restrictRow, getCell, regEqual, List.lookup, hne]

/-- C10 (amended): predict_fitness computes match and urgency only over the
column intersection of the need and capability tables: urgency is the mean of
the need components restricted to that intersection divided by 100, so
removing a column from the capability table changes the urgency returned for
every district whose need value in that column differs from the mean of its
remaining shared needs — even though the spec derives urgency from the Need
Vector alone. -/
theorem urgency_depends_on_capability_columns (reg : Row)
    (needCols cols1 cols2 : List String) (c : String) (rest : List String)
    (h1 : cats needCols cols1 = c :: rest)
    (h2 : cats needCols cols2 = rest)
    (h3 : rest ≠ [])
    (h4 : getCell reg c ≠ (restrictRow reg rest).sum / rest.length) :
    urgencyOfNeeds (restrictRow reg (cats needCols cols1)) ≠
      urgencyOfNeeds (restrictRow reg (cats needCols cols2)) := by
  rw [h1, h2]
  have hrr : restrictRow reg (c :: rest) = getCell reg c :: restrictRow reg rest := rfl
  have hrne : restrictRow reg rest ≠ [] := by
    rw [restrictRow]
    intro hnil
    rw [List.map_eq_nil_iff] at hnil
    exact h3 hnil
  have hlen : (restrictRow reg rest).length = rest.length := by simp [restrictRow]
  rw [hrr, urgencyOfNeeds_of_ne_nil _ (List.cons_ne_nil _ _),
    urgencyOfNeeds_of_ne_nil _ hrne]
  intro hcontra
  rw [Option.some.injEq] at hcontra
  apply h4
  have hk : (0:ℚ) < rest.length := by
    have := List.length_pos.mpr h3
    exact_mod_cast this
  have hk0 : (rest.length : ℚ) ≠ 0 := ne_of_gt hk
  have hk1 : ((rest.length : ℚ) + 1) ≠ 0 := by positivity
  rw [List.sum_cons, List.length_cons, hlen] at hcontra
  push_cast at hcontra
  rw [eq_div_iff hk0]
  field_simp at hcontra
  nlinarith [hcontra]

theorem urgency_depends_on_capability_columns_witness :
    urgencyOfNeeds (restrictRow regSkew
        (cats ["district", "Emergency Food Distribution", "Agricultural Recovery"]
              ["NGO", "Emergency Food Distribution", "Agricultural Recovery"])) ≠
      urgencyOfNeeds (restrictRow regSkew
        (cats ["district", "Emergency Food Distribution", "Agricultural Recovery"]
              ["NGO", "Agricultural Recovery"])) :=
  urgency_depends_on_capability_columns regSkew
    ["district", "Emergency Food Distribution", "Agricultural Recovery"]
    ["NGO", "Emergency Food Distribution", "Agricultural Recovery"]
    ["NGO", "Agricultural Recovery"]
    "Emergency Food Distribution" ["Agricultural Recovery"]
    (by decide) (by decide) (by decide)
    (by
      have hne : ("Agricultural Recovery" == "Emergency Food Distribution") = false := by
        decide
      norm_num [getCell, restrictRow, regSkew, List.lookup, hne])
